import Mathlib

/-! Verification of tmpl_ref.cpp: `Restorable<T>`, `Entity`, `makeRestorable`,
`makeEntity`.

A shallow embedding of
`src/public/posts/hide-n-seek-with-refs-in-cpp-templates/tmpl_ref.cpp`.

* A C++ value of type `T` is a Lean value of type `T`; copy construction and
  copy assignment are the identity on values (the two members of
  `Restorable<T>` are objects of type `T`, never references, because the
  factories instantiate `Restorable<std::decay_t<T>>`).
* The members the template requires of `T` (`operator!=`, `save() const`,
  `toString() const`) are not constrained by the code, so they are arbitrary
  functions, collected in `Value`.
* `save()` is the only effectful member: it acts on an external world `W`
  (for `S` the characters written to `std::cout`) and may throw an exception
  of type `E`.  A call returns the outcome together with the world after it.
-/

namespace TmplRef

/-! ## The requirements on the value type `T` -/

/-- The members of `T` that `Restorable<T>` and the factories call.
`ne` is `T::operator!=` (used by `isChanged`), `save` is `T::save() const`
(it cannot modify the object, it acts on the world and either returns or
throws), `toString` is `T::toString() const`. -/
structure Value (T W E : Type) where
  ne : T → T → Bool
  save : T → W → Except E Unit × W
  toString : T → String

/-! ## `template<typename T> class Restorable` (lines 15-50) -/

/-- The two data members of `Restorable<T>` (lines 48-49). -/
structure Restorable (T : Type) where
  _actual : T
  _original : T
deriving DecidableEq, Repr

namespace Restorable

variable {T W E : Type}

/-- Source: `Restorable(const T& value) : _actual(value), _original(value)` (lines 18-21). -/
def construct (value : T) : Restorable T :=
  { _actual := value, _original := value }

/-- Source: `bool isChanged() const { return _actual != _original; }` (lines 23-25). -/
def isChanged (ops : Value T W E) (r : Restorable T) : Bool :=
  ops.ne r._actual r._original

/-- Source: `void restore() { _actual = _original; }` (lines 27-29). -/
def restore (r : Restorable T) : Restorable T :=
  { r with _actual := r._original }

/-- Source: `const T& value() const { return _actual; }` (lines 31-33). -/
def value (r : Restorable T) : T :=
  r._actual

/-- Source: `T& value() { return _actual; }` (lines 35-37) followed by a write through
the returned reference: the caller replaces the working copy by `f` of it
(`r4.value().name = "delta (upd.)"` on line 124 is such a write). -/
def valueMut (f : T → T) (r : Restorable T) : Restorable T :=
  { r with _actual := f r._actual }

/-- Source: `void save() const override { return _actual.save(); }` (lines 39-41). -/
def save (ops : Value T W E) (r : Restorable T) (w : W) : Except E Unit × W :=
  ops.save r._actual w

/-- Source: `std::string toString() const override { return _actual.toString(); }`
(lines 43-45). -/
def toString (ops : Value T W E) (r : Restorable T) : String :=
  ops.toString r._actual

/-- The implicitly defined copy/move constructor of `Restorable<T>`: member-wise
copy of `_actual` and `_original`.  `std::make_unique` on line 62 uses it to
build the heap object from the wrapper `makeRestorable` returned. -/
def copy (other : Restorable T) : Restorable T :=
  { _actual := other._actual, _original := other._original }

end Restorable

/-! ## The factories (lines 53-63) -/

section Factories

variable {T W E : Type}

/-- Source: `makeRestorable(T&& sample)` (lines 53-57): `sample.save();` and then
`return Restorable<std::decay_t<T>>(std::forward<T>(sample));`.  When `save`
throws, the exception leaves the function and the constructor is not reached. -/
def makeRestorable (ops : Value T W E) (sample : T) (w : W) :
    Except E (Restorable T) × W :=
  match ops.save sample w with
  | (Except.ok _, w1) => (Except.ok (Restorable.construct sample), w1)
  | (Except.error e, w1) => (Except.error e, w1)

end Factories

/-! ## `class Entity` (lines 8-12) -/

/-- An object reached through `std::unique_ptr<Entity>`.  `Entity` is abstract
and `Restorable<T>` is its only implementer, so the pointee is a
`Restorable<T>` for some `T`: the dynamic type (`T` with its members) and the
object itself. -/
structure Entity (W E : Type) : Type 1 where
  T : Type
  ops : Value T W E
  obj : Restorable T

namespace Entity

variable {W E : Type}

/-- Source: `virtual void save() const = 0;` (line 10): the call dispatches to the
override `Restorable<T>::save` of the dynamic type. -/
def save (p : Entity W E) (w : W) : Except E Unit × W :=
  Restorable.save p.ops p.obj w

/-- Source: `virtual std::string toString() const = 0;` (line 11): the call dispatches
to the override `Restorable<T>::toString` of the dynamic type. -/
def toString (p : Entity W E) : String :=
  Restorable.toString p.ops p.obj

end Entity

section Factories

variable {T W E : Type}

/-- Source: `makeEntity(T&& sample)` (lines 60-63):
`std::make_unique<Restorable<std::decay_t<T>>>(makeRestorable(std::forward<T>(sample)))`,
returned as `std::unique_ptr<Entity>`. -/
def makeEntity (ops : Value T W E) (sample : T) (w : W) :
    Except E (Entity W E) × W :=
  match makeRestorable ops sample w with
  | (Except.ok r, w1) =>
      (Except.ok { T := T, ops := ops, obj := Restorable.copy r }, w1)
  | (Except.error e, w1) => (Except.error e, w1)

end Factories

/-! ## `struct S` (lines 67-81) -/

/-- Source: `struct S { int id = 0; std::string name; ... }` (lines 67-69).  `id` is a
C++ `int`; no arithmetic is done on it, it is only printed. -/
structure S where
  id : Int := 0
  name : String := ""
deriving DecidableEq, Repr

namespace S

/-- Source: `void save() const` (lines 71-74): writes one line to `std::cout`.  The
world is the text written to `std::cout` so far; the call never throws. -/
def save {E : Type} (s : S) (out : String) : Except E Unit × String :=
  (Except.ok (), out ++ "Сохраняю S #" ++ ToString.toString s.id ++ "...\n")

/-- Source: `std::string toString() const` (lines 76-80):
`ss << "S[ #" << std::to_string(id) << ' ' << name << " ]"`. -/
def toString (s : S) : String :=
  "S[ #" ++ ToString.toString s.id ++ " " ++ s.name ++ " ]"

/-- Modelled from the spec: `operator!=` of `S`.  The source declares no
comparison operator for `S` (and never instantiates `isChanged` for it); the
spec's scenarios compare values of this shape with "`T`'s equality", taken here
as the member-wise comparison of `id` and `name`. -/
def ne (a b : S) : Bool :=
  a.id != b.id || a.name != b.name

/-- The members of `S` as a value type for `Restorable<S>`; the comparison is a
parameter because the source does not fix it. -/
def opsWith (E : Type) (cmp : S → S → Bool) : Value S String E :=
  { ne := cmp, save := S.save, toString := S.toString }

/-- The value type `S` with the member-wise comparison `S.ne`. -/
def ops (E : Type) : Value S String E :=
  opsWith E S.ne

end S

/-- Source: `loadEntity()` (lines 84-87): `S s { 3, "gamma" }; return makeEntity(s);`. -/
def loadEntity {E : Type} (out : String) : Except E (Entity String E) × String :=
  makeEntity (S.ops E) { id := 3, name := "gamma" } out

/-! ## Sequences of calls on one wrapper -/

/-- One call a holder of a `Restorable<T>` can make: a write through the
reference returned by the non-const `value()`, or one of the member functions. -/
inductive Op (T : Type) where
  | valueMut (f : T → T)
  | restore
  | save
  | toString
  | isChanged
  | value

section Calls

variable {T W E : Type}

/-- The effect of one call on the wrapper and on the world.  The const member
functions leave the wrapper as it is; `save` moves the world, also when it
throws (the caller may catch the exception and go on using the wrapper). -/
def step (ops : Value T W E) : Op T → Restorable T × W → Restorable T × W
  | Op.valueMut f, (r, w) => (Restorable.valueMut f r, w)
  | Op.restore, (r, w) => (Restorable.restore r, w)
  | Op.save, (r, w) => (r, (Restorable.save ops r w).2)
  | Op.toString, (r, w) => (r, w)
  | Op.isChanged, (r, w) => (r, w)
  | Op.value, (r, w) => (r, w)

/-- A sequence of calls, left to right. -/
def run (ops : Value T W E) : List (Op T) → Restorable T × W → Restorable T × W
  | [], s => s
  | o :: l, s => run ops l (step ops o s)

/-- A sequence of writes through the non-const `value()`, left to right. -/
def mutateAll : List (T → T) → Restorable T → Restorable T
  | [], r => r
  | f :: fs, r => mutateAll fs (Restorable.valueMut f r)

/-- The value type `ops` with every invocation of `T::save()` recorded: the
world carries a journal to which each call appends the object it was invoked
on, whether the call returns or throws. -/
def journaled (ops : Value T W E) : Value T (W × List T) E :=
  { ne := ops.ne
    save := fun t wj => ((ops.save t wj.1).1, ((ops.save t wj.1).2, wj.2 ++ [t]))
    toString := ops.toString }

end Calls

/-! ## Sample value types used as concrete inputs -/

/-- A measurement that is either a number or "not a number". -/
inductive Reading where
  | nan
  | num (n : Int)
deriving DecidableEq, Repr

namespace Reading

/-- The `operator!=` of `Reading`, with the convention of floating-point
comparison: "not a number" differs from every reading, itself included. -/
def ne : Reading → Reading → Bool
  | num a, num b => a != b
  | _, _ => true

/-- The `save` member of `Reading`: appends the reading to a list; never throws. -/
def save (x : Reading) (w : List Reading) : Except String Unit × List Reading :=
  (Except.ok (), w ++ [x])

/-- The `toString` member of `Reading`. -/
def toString : Reading → String
  | nan => "nan"
  | num n => ToString.toString n

/-- The value type `Reading`. -/
def ops : Value Reading (List Reading) String :=
  { ne := Reading.ne, save := Reading.save, toString := Reading.toString }

end Reading

/-- A value type over `S` whose `save` can throw: the world is the number of
free slots of a store; `save` takes one slot and throws `"store full"` when
none is left. -/
def quotaOps : Value S Nat String :=
  { ne := S.ne
    save := fun _ free =>
      match free with
      | 0 => (Except.error "store full", 0)
      | n + 1 => (Except.ok (), n)
    toString := S.toString }

/-! ## Calls that only observe -/

/-- Whether a call is `save()` or `toString()`. -/
def Op.isSaveOrToString {T : Type} : Op T → Bool
  | Op.save => true
  | Op.toString => true
  | _ => false

/-! ## `main` (lines 91-131) -/

/-- The local variables of `main` as they stand at the end of its body. -/
structure MainLocals (E : Type) : Type 1 where
  s : S
  r1 : Restorable S
  r2 : Restorable S
  r3 : Entity String E
  cs : S
  r4 : Restorable S

/-- Source: `int main()` (lines 91-131), statement by statement.  The world is the text
written to `std::cout`; the result is the local variables at the end of the
body.  An exception thrown by a factory leaves `main`. -/
def main {E : Type} (out0 : String) : Except E (MainLocals E) × String :=
  -- S s;  s = { 1, "alpha" };
  let s : S := {}
  let s : S := { s with id := 1, name := "alpha" }
  -- auto r1 = makeRestorable(s);
  match makeRestorable (S.ops E) s out0 with
  | (Except.error e, out) => (Except.error e, out)
  | (Except.ok r1, out) =>
    -- std::cout << "r1 = " << r1.toString() << '\n';
    let out := out ++ "r1 = " ++ Restorable.toString (S.ops E) r1 ++ "\n"
    -- s = { 2, "beta" };
    let s : S := { s with id := 2, name := "beta" }
    -- auto r2 = makeRestorable(s);
    match makeRestorable (S.ops E) s out with
    | (Except.error e, out) => (Except.error e, out)
    | (Except.ok r2, out) =>
      -- std::cout << "r2 = " << r2.toString() << "\n\n";
      let out := out ++ "r2 = " ++ Restorable.toString (S.ops E) r2 ++ "\n\n"
      -- std::cout << "r1 = " << r1.toString() << '\n';
      let out := out ++ "r1 = " ++ Restorable.toString (S.ops E) r1 ++ "\n"
      -- std::cout << "r2 = " << r2.toString() << "\n\n";
      let out := out ++ "r2 = " ++ Restorable.toString (S.ops E) r2 ++ "\n\n"
      -- auto r3 = loadEntity();
      match loadEntity out with
      | (Except.error e, out) => (Except.error e, out)
      | (Except.ok r3, out) =>
        -- std::cout << "r3 = " << r3->toString() << "\n\n";
        let out := out ++ "r3 = " ++ Entity.toString r3 ++ "\n\n"
        -- const S cs { 4, "delta" };
        let cs : S := { id := 4, name := "delta" }
        -- auto r4 = makeRestorable(cs);
        match makeRestorable (S.ops E) cs out with
        | (Except.error e, out) => (Except.error e, out)
        | (Except.ok r4, out) =>
          -- std::cout << "r4 = " << r4.toString() << '\n';
          let out := out ++ "r4 = " ++ Restorable.toString (S.ops E) r4 ++ "\n"
          -- r4.value().name = "delta (upd.)";
          let r4 := Restorable.valueMut (fun v => { v with name := "delta (upd.)" }) r4
          -- std::cout << "r4 = " << r4.toString() << '\n';
          let out := out ++ "r4 = " ++ Restorable.toString (S.ops E) r4 ++ "\n"
          (Except.ok { s := s, r1 := r1, r2 := r2, r3 := r3, cs := cs, r4 := r4 }, out)

/-! ## Objects in memory

The definitions above take a wrapper to be the pair of the values of its
members.  Whether two objects share storage cannot be asked of values, so the
same code is given here over a store of objects of type `T`, where a reference
is the address of the object it is bound to and a member of reference type
would denote the object of its initialiser. -/

namespace Mem

/-- The objects of type `T` of the running program: `mem a` is the object at
address `a`; the addresses below `next` are in use, the others are free. -/
structure Store (T : Type) where
  mem : Nat → T
  next : Nat

namespace Store

variable {T : Type}

/-- The assignment of `v` to the object at address `a`. -/
def write (a : Nat) (v : T) (st : Store T) : Store T :=
  { st with mem := fun x => if x = a then v else st.mem x }

/-- A new object copy-initialised from `v`: it is placed at the next free
address, which is returned. -/
def alloc (v : T) (st : Store T) : Nat × Store T :=
  (st.next, { mem := fun x => if x = st.next then v else st.mem x, next := st.next + 1 })

/-- A write through a reference bound to the object at `a`: the object becomes
`f` of what it was. -/
def update (a : Nat) (f : T → T) (st : Store T) : Store T :=
  write a (f (st.mem a)) st

/-- A sequence of assignments to the object at `a`, left to right. -/
def writeAll (a : Nat) : List T → Store T → Store T
  | [], st => st
  | v :: vs, st => writeAll a vs (write a v st)

end Store

/-- The template argument of `Restorable<...>` and of the factories, for a class
type `S`: `S`, `S&` or `const S&`. -/
inductive TypeArg where
  | object
  | lvalueRef
  | constLvalueRef
deriving DecidableEq, Repr

/-- Whether the template argument is a reference type. -/
def TypeArg.isReference : TypeArg → Bool
  | TypeArg.object => false
  | TypeArg.lvalueRef => true
  | TypeArg.constLvalueRef => true

/-- Modelled from the spec: `std::decay_t` (declared in `<type_traits>`, not in
the repository) on these types; it yields the "decayed (non-reference,
non-const)" type: `S` for `S`, for `S&` and for `const S&`. -/
def decay_t : TypeArg → TypeArg
  | TypeArg.object => TypeArg.object
  | TypeArg.lvalueRef => TypeArg.object
  | TypeArg.constLvalueRef => TypeArg.object

/-- The argument expression of a factory call: a variable (`s` on lines 95, 106
and 86), a `const` variable (`cs` on line 116) or a temporary. -/
inductive ArgKind where
  | lvalue
  | constLvalue
  | rvalue
deriving DecidableEq, Repr

/-- The template argument deduced for the forwarding reference `T&& sample`
(lines 54 and 61): `S&` for a variable, `const S&` for a `const` variable, `S`
for a temporary. -/
def deduce : ArgKind → TypeArg
  | ArgKind.lvalue => TypeArg.lvalueRef
  | ArgKind.constLvalue => TypeArg.constLvalueRef
  | ArgKind.rvalue => TypeArg.object

/-- A `Restorable<U>` object in memory (lines 48-49): the addresses of the
objects its members `_actual` and `_original` denote.  For an object type `U`
these are the two member subobjects; for a reference type `U` they are the
objects the two references are bound to. -/
structure Restorable where
  _actual : Nat
  _original : Nat
deriving DecidableEq, Repr

namespace Restorable

variable {T W E : Type}

/-- Source: `Restorable(const T& value) : _actual(value), _original(value)` (lines 18-21)
for `Restorable<U>`, with `value` bound to the object at that address.  A
member of object type is a new object copy-initialised from `value`, in the
order of declaration; a member of reference type is bound to the object
`value` is bound to. -/
def construct (U : TypeArg) (value : Nat) (st : Store T) : Restorable × Store T :=
  match U.isReference with
  | true => ({ _actual := value, _original := value }, st)
  | false =>
    let a := st.alloc (st.mem value)
    let o := a.2.alloc (a.2.mem value)
    ({ _actual := a.1, _original := o.1 }, o.2)

/-- Source: `bool isChanged() const { return _actual != _original; }` (lines 23-25). -/
def isChanged (ops : Value T W E) (r : Restorable) (st : Store T) : Bool :=
  ops.ne (st.mem r._actual) (st.mem r._original)

/-- Source: `void restore() { _actual = _original; }` (lines 27-29). -/
def restore (r : Restorable) (st : Store T) : Store T :=
  st.write r._actual (st.mem r._original)

/-- Source: `T& value() { return _actual; }` (lines 35-37): the reference returned, as
the address of the object `_actual` denotes. -/
def value (r : Restorable) : Nat :=
  r._actual

/-- Source: `void save() const override { return _actual.save(); }` (lines 39-41). -/
def save (ops : Value T W E) (r : Restorable) (st : Store T) (w : W) : Except E Unit × W :=
  ops.save (st.mem r._actual) w

/-- Source: `std::string toString() const override { return _actual.toString(); }`
(lines 43-45). -/
def toString (ops : Value T W E) (r : Restorable) (st : Store T) : String :=
  ops.toString (st.mem r._actual)

/-- The implicitly defined copy/move constructor of `Restorable<U>`, member by
member in the order of declaration (used by `std::make_unique` on line 62). -/
def copy (U : TypeArg) (other : Restorable) (st : Store T) : Restorable × Store T :=
  match U.isReference with
  | true => (other, st)
  | false =>
    let a := st.alloc (st.mem other._actual)
    let o := a.2.alloc (a.2.mem other._original)
    ({ _actual := a.1, _original := o.1 }, o.2)

/-- The values of the two members of a wrapper in a store. -/
def read (r : Restorable) (st : Store T) : TmplRef.Restorable T :=
  { _actual := st.mem r._actual, _original := st.mem r._original }

end Restorable

section Factories

variable {T W E : Type}

/-- Source: `makeRestorable(T&& sample)` (lines 53-57) with `T` the deduced argument
`targ` and `sample` bound to the object at that address: `sample.save();` and
then `return Restorable<std::decay_t<T>>(std::forward<T>(sample));`, the
returned object being the one the caller declares. -/
def makeRestorable (ops : Value T W E) (targ : TypeArg) (sample : Nat) (st : Store T)
    (w : W) : Except E Restorable × Store T × W :=
  match ops.save (st.mem sample) w with
  | (Except.ok _, w1) =>
    let c := Restorable.construct (decay_t targ) sample st
    (Except.ok c.1, c.2, w1)
  | (Except.error e, w1) => (Except.error e, st, w1)

/-- Source: `makeEntity(T&& sample)` (lines 60-63): the object `makeRestorable`
returns is copied into a new `Restorable<std::decay_t<T>>` object, whose
address the returned `std::unique_ptr<Entity>` holds. -/
def makeEntity (ops : Value T W E) (targ : TypeArg) (sample : Nat) (st : Store T)
    (w : W) : Except E Restorable × Store T × W :=
  match makeRestorable ops targ sample st w with
  | (Except.ok r, st1, w1) =>
    let c := Restorable.copy (decay_t targ) r st1
    (Except.ok c.1, c.2, w1)
  | (Except.error e, st1, w1) => (Except.error e, st1, w1)

end Factories

/-- Source: `loadEntity()` (lines 84-87): `S s { 3, "gamma" }; return makeEntity(s);`. -/
def loadEntity {E : Type} (st : Store S) (out : String) :
    Except E Restorable × Store S × String :=
  let s := st.alloc { id := 3, name := "gamma" }
  makeEntity (S.ops E) (deduce ArgKind.lvalue) s.1 s.2 out

/-- Where the local variables of `main` are at the end of its body. -/
structure MainLocals where
  s : Nat
  r1 : Restorable
  r2 : Restorable
  r3 : Restorable
  cs : Nat
  r4 : Restorable
deriving DecidableEq, Repr

/-- Source: `int main()` (lines 91-131), statement by statement, over the store of the
objects of type `S`.  The world is the text written to `std::cout`. -/
def main {E : Type} (st0 : Store S) (out0 : String) :
    Except E MainLocals × Store S × String :=
  -- S s;
  let s := st0.alloc {}
  -- s = { 1, "alpha" };
  let st := s.2.write s.1 { id := 1, name := "alpha" }
  -- auto r1 = makeRestorable(s);
  match makeRestorable (S.ops E) (deduce ArgKind.lvalue) s.1 st out0 with
  | (Except.error e, st, out) => (Except.error e, st, out)
  | (Except.ok r1, st, out) =>
    -- std::cout << "r1 = " << r1.toString() << '\n';
    let out := out ++ "r1 = " ++ Restorable.toString (S.ops E) r1 st ++ "\n"
    -- s = { 2, "beta" };
    let st := st.write s.1 { id := 2, name := "beta" }
    -- auto r2 = makeRestorable(s);
    match makeRestorable (S.ops E) (deduce ArgKind.lvalue) s.1 st out with
    | (Except.error e, st, out) => (Except.error e, st, out)
    | (Except.ok r2, st, out) =>
      -- std::cout << "r2 = " << r2.toString() << "\n\n";
      let out := out ++ "r2 = " ++ Restorable.toString (S.ops E) r2 st ++ "\n\n"
      -- std::cout << "r1 = " << r1.toString() << '\n';
      let out := out ++ "r1 = " ++ Restorable.toString (S.ops E) r1 st ++ "\n"
      -- std::cout << "r2 = " << r2.toString() << "\n\n";
      let out := out ++ "r2 = " ++ Restorable.toString (S.ops E) r2 st ++ "\n\n"
      -- auto r3 = loadEntity();
      match loadEntity st out with
      | (Except.error e, st, out) => (Except.error e, st, out)
      | (Except.ok r3, st, out) =>
        -- std::cout << "r3 = " << r3->toString() << "\n\n";
        let out := out ++ "r3 = " ++ Restorable.toString (S.ops E) r3 st ++ "\n\n"
        -- const S cs { 4, "delta" };
        let cs := st.alloc { id := 4, name := "delta" }
        -- auto r4 = makeRestorable(cs);
        match makeRestorable (S.ops E) (deduce ArgKind.constLvalue) cs.1 cs.2 out with
        | (Except.error e, st, out) => (Except.error e, st, out)
        | (Except.ok r4, st, out) =>
          -- std::cout << "r4 = " << r4.toString() << '\n';
          let out := out ++ "r4 = " ++ Restorable.toString (S.ops E) r4 st ++ "\n"
          -- r4.value().name = "delta (upd.)";
          let st := st.update (Restorable.value r4) (fun v => { v with name := "delta (upd.)" })
          -- std::cout << "r4 = " << r4.toString() << '\n';
          let out := out ++ "r4 = " ++ Restorable.toString (S.ops E) r4 st ++ "\n"
          (Except.ok { s := s.1, r1 := r1, r2 := r2, r3 := r3, cs := cs.1, r4 := r4 }, st, out)

/-- The store before `main` runs: no object of type `S` exists yet. -/
def emptyStore : Store S :=
  { mem := fun _ => {}, next := 0 }

end Mem

/-! ## Lemmas shared by the theorems -/

section Lemmas

variable {T W E : Type}

theorem step_original (ops : Value T W E) (o : Op T) (st : Restorable T × W) :
    (step ops o st).1._original = st.1._original := by
  obtain ⟨r, w⟩ := st
  cases o <;> rfl

theorem run_original (ops : Value T W E) (calls : List (Op T)) (st : Restorable T × W) :
    (run ops calls st).1._original = st.1._original := by
  induction calls generalizing st with
  | nil => rfl
  | cons o l ih =>
    show (run ops l (step ops o st)).1._original = st.1._original
    rw [ih, step_original]

theorem mutateAll_original (fs : List (T → T)) (r : Restorable T) :
    (mutateAll fs r)._original = r._original := by
  induction fs generalizing r with
  | nil => rfl
  | cons f l ih =>
    show (mutateAll l (Restorable.valueMut f r))._original = r._original
    rw [ih]
    rfl

theorem run_valueMut (ops : Value T W E) (fs : List (T → T)) (r : Restorable T) (w : W) :
    run ops (fs.map Op.valueMut) (r, w) = (mutateAll fs r, w) := by
  induction fs generalizing r with
  | nil => rfl
  | cons f l ih =>
    show run ops (l.map Op.valueMut) (Restorable.valueMut f r, w) = _
    rw [ih]
    rfl

theorem makeRestorable_ok (ops : Value T W E) (s : T) (w w1 : W)
    (h : ops.save s w = (Except.ok (), w1)) :
    makeRestorable ops s w = (Except.ok { _actual := s, _original := s }, w1) := by
  simp [makeRestorable, h, Restorable.construct]

theorem makeRestorable_error (ops : Value T W E) (s : T) (w w1 : W) (e : E)
    (h : ops.save s w = (Except.error e, w1)) :
    makeRestorable ops s w = (Except.error e, w1) := by
  simp [makeRestorable, h]

theorem makeRestorable_world (ops : Value T W E) (s : T) (w : W) :
    (makeRestorable ops s w).2 = (ops.save s w).2 := by
  rcases h : ops.save s w with ⟨res, w1⟩
  cases res with
  | ok u => cases u; rw [makeRestorable_ok ops s w w1 h]
  | error e => rw [makeRestorable_error ops s w w1 e h]

theorem makeEntity_world (ops : Value T W E) (s : T) (w : W) :
    (makeEntity ops s w).2 = (makeRestorable ops s w).2 := by
  unfold makeEntity
  rcases makeRestorable ops s w with ⟨res, w1⟩
  cases res <;> rfl

theorem makeEntity_ok (ops : Value T W E) (s : T) (w w1 : W)
    (h : ops.save s w = (Except.ok (), w1)) :
    makeEntity ops s w
      = (Except.ok { T := T, ops := ops, obj := { _actual := s, _original := s } }, w1) := by
  unfold makeEntity
  rw [makeRestorable_ok ops s w w1 h]
  rfl

theorem S.save_eq (s : S) (out : String) :
    S.save (E := E) s out
      = (Except.ok (), out ++ ("Сохраняю S #" ++ ToString.toString s.id ++ "...\n")) := by
  simp [S.save, String.append_assoc]

theorem step_wrapper_world (ops : Value T W E) (o : Op T) (r : Restorable T) (w w1 : W) :
    (step ops o (r, w)).1 = (step ops o (r, w1)).1 := by
  cases o <;> rfl

theorem run_wrapper_world (ops : Value T W E) (calls : List (Op T)) (r : Restorable T)
    (w w1 : W) :
    (run ops calls (r, w)).1 = (run ops calls (r, w1)).1 := by
  induction calls generalizing r w w1 with
  | nil => rfl
  | cons o l ih =>
    show (run ops l (step ops o (r, w))).1 = (run ops l (step ops o (r, w1))).1
    have h := step_wrapper_world ops o r w w1
    rcases h1 : step ops o (r, w) with ⟨r1, w2⟩
    rcases h2 : step ops o (r, w1) with ⟨r2, w3⟩
    rw [h1, h2] at h
    simp only at h
    subst h
    exact ih r1 w2 w3

theorem step_isSaveOrToString (ops : Value T W E) (o : Op T) (r : Restorable T) (w : W)
    (h : o.isSaveOrToString = true) : (step ops o (r, w)).1 = r := by
  cases o <;> first | rfl | cases h

theorem run_filter_wrapper (ops : Value T W E) (calls : List (Op T)) (r : Restorable T)
    (w : W) :
    (run ops calls (r, w)).1
      = (run ops (calls.filter (fun o => !o.isSaveOrToString)) (r, w)).1 := by
  induction calls generalizing r w with
  | nil => rfl
  | cons o l ih =>
    show (run ops l (step ops o (r, w))).1 = _
    cases ho : o.isSaveOrToString with
    | true =>
      have h := step_isSaveOrToString ops o r w ho
      rcases h1 : step ops o (r, w) with ⟨r1, w2⟩
      rw [h1] at h
      simp only at h
      subst h
      rw [List.filter_cons_of_neg (by simp [ho]), ih r1 w2]
      exact run_wrapper_world ops _ r1 w2 w
    | false =>
      rw [List.filter_cons_of_pos (by simp [ho])]
      show _ = (run ops (l.filter (fun o => !o.isSaveOrToString)) (step ops o (r, w))).1
      rcases step ops o (r, w) with ⟨r1, w2⟩
      exact ih r1 w2

theorem main_eq : main (E := E) ""
    = (Except.ok
        { s := { id := 2, name := "beta" }
          r1 := { _actual := { id := 1, name := "alpha" },
                  _original := { id := 1, name := "alpha" } }
          r2 := { _actual := { id := 2, name := "beta" },
                  _original := { id := 2, name := "beta" } }
          r3 := { T := S, ops := S.ops E,
                  obj := { _actual := { id := 3, name := "gamma" },
                           _original := { id := 3, name := "gamma" } } }
          cs := { id := 4, name := "delta" }
          r4 := { _actual := { id := 4, name := "delta (upd.)" },
                  _original := { id := 4, name := "delta" } } },
        "Сохраняю S #1...\nr1 = S[ #1 alpha ]\nСохраняю S #2...\nr2 = S[ #2 beta ]\n\n"
          ++ "r1 = S[ #1 alpha ]\nr2 = S[ #2 beta ]\n\n"
          ++ "Сохраняю S #3...\nr3 = S[ #3 gamma ]\n\n"
          ++ "Сохраняю S #4...\nr4 = S[ #4 delta ]\nr4 = S[ #4 delta (upd.) ]\n") := by
  rfl

end Lemmas

/-! ## Lemmas on objects in memory -/

namespace Mem

section Lemmas

variable {T W E : Type}

theorem Store.write_mem_same (a : Nat) (v : T) (st : Store T) :
    (Store.write a v st).mem a = v := by
  simp [Store.write]

theorem Store.write_mem_ne (a x : Nat) (v : T) (st : Store T) (h : x ≠ a) :
    (Store.write a v st).mem x = st.mem x := by
  simp [Store.write, h]

theorem Store.writeAll_mem_ne (a x : Nat) (vs : List T) (st : Store T) (h : x ≠ a) :
    (Store.writeAll a vs st).mem x = st.mem x := by
  induction vs generalizing st with
  | nil => rfl
  | cons v l ih =>
    show (Store.writeAll a l (Store.write a v st)).mem x = st.mem x
    rw [ih, Store.write_mem_ne a x v st h]

theorem Store.writeAll_mem_last (a : Nat) (vs : List T) (v : T) (st : Store T) :
    (Store.writeAll a (vs ++ [v]) st).mem a = v := by
  induction vs generalizing st with
  | nil => exact Store.write_mem_same a v st
  | cons u l ih => exact ih (Store.write a u st)

theorem decay_t_isReference (targ : TypeArg) : (decay_t targ).isReference = false := by
  cases targ <;> rfl

theorem construct_object_fst (U : TypeArg) (hU : U.isReference = false) (p : Nat)
    (st : Store T) :
    (Restorable.construct U p st).1 = { _actual := st.next, _original := st.next + 1 } := by
  simp [Restorable.construct, hU, Store.alloc]

theorem construct_object_mem (U : TypeArg) (hU : U.isReference = false) (p x : Nat)
    (st : Store T) :
    (Restorable.construct U p st).2.mem x
      = if x = st.next + 1 then st.mem p else if x = st.next then st.mem p else st.mem x := by
  simp only [Restorable.construct, hU, Store.alloc]
  split_ifs <;> rfl

theorem construct_object_next (U : TypeArg) (hU : U.isReference = false) (p : Nat)
    (st : Store T) :
    (Restorable.construct U p st).2.next = st.next + 2 := by
  simp [Restorable.construct, hU, Store.alloc]

/-- The class template instantiated with a reference type would share storage:
both members of a `Restorable<S&>` denote the object the constructor's argument
is bound to, so an assignment to that object shows in the working copy and in
the original snapshot.  The factories avoid this instantiation by
`std::decay_t`. -/
theorem construct_reference_shares (U : TypeArg) (hU : U.isReference = true) (p : Nat)
    (st : Store T) (v : T) :
    Restorable.construct U p st = ({ _actual := p, _original := p }, st) ∧
      Restorable.read (Restorable.construct U p st).1
          (Store.write p v (Restorable.construct U p st).2)
        = TmplRef.Restorable.construct v := by
  have h : Restorable.construct U p st = ({ _actual := p, _original := p }, st) := by
    simp [Restorable.construct, hU]
  refine ⟨h, ?_⟩
  rw [h]
  simp [Restorable.read, TmplRef.Restorable.construct, Store.write]

theorem makeRestorable_at_ok (ops : Value T W E) (targ : TypeArg) (s : Nat) (st : Store T)
    (w w1 : W) (h : ops.save (st.mem s) w = (Except.ok (), w1)) :
    makeRestorable ops targ s st w
      = (Except.ok (Restorable.construct (decay_t targ) s st).1,
          (Restorable.construct (decay_t targ) s st).2, w1) := by
  simp [makeRestorable, h]

theorem main_store_eq :
    (main (E := E) emptyStore "").1
        = Except.ok
            { s := 0, r1 := { _actual := 1, _original := 2 },
              r2 := { _actual := 3, _original := 4 },
              r3 := { _actual := 8, _original := 9 }, cs := 10,
              r4 := { _actual := 11, _original := 12 } } ∧
      (main (E := E) emptyStore "").2.2
        = "Сохраняю S #1...\nr1 = S[ #1 alpha ]\nСохраняю S #2...\nr2 = S[ #2 beta ]\n\n"
          ++ "r1 = S[ #1 alpha ]\nr2 = S[ #2 beta ]\n\n"
          ++ "Сохраняю S #3...\nr3 = S[ #3 gamma ]\n\n"
          ++ "Сохраняю S #4...\nr4 = S[ #4 delta ]\nr4 = S[ #4 delta (upd.) ]\n" :=
  ⟨rfl, rfl⟩

end Lemmas

end Mem

/-! ## Change detection after construction and after `restore()` -/

section Claims

variable {T W E : Type}

/-- C1, as stated, fails: a `Restorable<Reading>` constructed from a NaN reading
reports `isChanged() = true` immediately after construction, because the
comparison of `Reading` is not irreflexive. -/
theorem isChanged_construct_nan :
    Restorable.isChanged Reading.ops (Restorable.construct Reading.nan) = true := by
  decide

/-- C1 (amended): for every value type `T` and every initial value `v` that
`T::operator!=` does not distinguish from itself, the wrapper constructed from
`v` reports `isChanged() = false` immediately after construction. -/
theorem isChanged_construct (ops : Value T W E) (v : T) (hv : ops.ne v v = false) :
    Restorable.isChanged ops (Restorable.construct v) = false := by
  simpa [Restorable.isChanged, Restorable.construct] using hv

theorem isChanged_construct_witness :
    (S.ops String).ne { id := 1, name := "alpha" } { id := 1, name := "alpha" } = false ∧
      Restorable.isChanged (S.ops String)
        (Restorable.construct { id := 1, name := "alpha" }) = false :=
  ⟨by decide, isChanged_construct (S.ops String) { id := 1, name := "alpha" } (by decide)⟩

/-- C2, as stated, fails: from a `Restorable<Reading>` constructed from a NaN
reading, after a write through `value()`, a `save()` and a `restore()`, one more
`restore()` still leaves `isChanged() = true`. -/
theorem isChanged_restore_nan :
    Restorable.isChanged Reading.ops
      (Restorable.restore
        (run Reading.ops [Op.valueMut (fun _ => Reading.num 7), Op.save, Op.restore]
          (Restorable.construct Reading.nan, [])).1) = true := by
  decide

/-- C2 (amended): for every initial value `v` that `T::operator!=` does not
distinguish from itself, and every state reached from `construct(v)` by any
sequence of writes through `value()` and calls of the member functions,
`isChanged()` is false immediately after `restore()`. -/
theorem isChanged_restore_reachable (ops : Value T W E) (v : T)
    (hv : ops.ne v v = false) (calls : List (Op T)) (w : W) :
    Restorable.isChanged ops
      (Restorable.restore (run ops calls (Restorable.construct v, w)).1) = false := by
  have h := run_original ops calls (Restorable.construct v, w)
  simp only [Restorable.isChanged, Restorable.restore, h]
  exact hv

theorem isChanged_restore_reachable_witness :
    (S.ops String).ne { id := 1, name := "alpha" } { id := 1, name := "alpha" } = false ∧
      Restorable.isChanged (S.ops String)
        (Restorable.restore
          (run (S.ops String)
            [Op.valueMut (fun s => { s with name := "alpha-2" }), Op.save, Op.isChanged]
            (Restorable.construct { id := 1, name := "alpha" }, "")).1) = false :=
  ⟨by decide,
    isChanged_restore_reachable (S.ops String) { id := 1, name := "alpha" } (by decide)
      [Op.valueMut (fun s => { s with name := "alpha-2" }), Op.save, Op.isChanged] ""⟩

/-- C3, as stated, fails: construct a `Restorable<Reading>` from a NaN reading and
write `7` through `value()`.  The working value differs from the original under
the comparison of `Reading` and `isChanged()` is true, but `isChanged()` is
still true immediately after `restore()`. -/
theorem isChanged_mutate_restore_nan :
    Reading.ops.ne
        (mutateAll [fun _ => Reading.num 7] (Restorable.construct Reading.nan))._actual
        Reading.nan = true ∧
      Restorable.isChanged Reading.ops
        (mutateAll [fun _ => Reading.num 7] (Restorable.construct Reading.nan)) = true ∧
      Restorable.isChanged Reading.ops
        (Restorable.restore
          (mutateAll [fun _ => Reading.num 7] (Restorable.construct Reading.nan))) = true := by
  decide

/-- C3 (amended): for every initial value `v` that `T::operator!=` does not
distinguish from itself, and every sequence of writes through the non-const
`value()` whose resulting working value differs from `v` under
`T::operator!=`, `isChanged()` is true before `restore()` and false
immediately after it. -/
theorem isChanged_mutate_restore (ops : Value T W E) (v : T) (hv : ops.ne v v = false)
    (fs : List (T → T))
    (hdiff : ops.ne (mutateAll fs (Restorable.construct v))._actual v = true) :
    Restorable.isChanged ops (mutateAll fs (Restorable.construct v)) = true ∧
      Restorable.isChanged ops
        (Restorable.restore (mutateAll fs (Restorable.construct v))) = false := by
  have h := mutateAll_original fs (Restorable.construct v)
  simp only [Restorable.isChanged, Restorable.restore, h]
  exact ⟨hdiff, hv⟩

theorem isChanged_mutate_restore_witness :
    (S.ops String).ne { id := 1, name := "alpha" } { id := 1, name := "alpha" } = false ∧
      (S.ops String).ne
        (mutateAll [fun s => { s with name := "alpha-2" }, fun s => { s with id := 5 }]
          (Restorable.construct { id := 1, name := "alpha" }))._actual
        { id := 1, name := "alpha" } = true ∧
      Restorable.isChanged (S.ops String)
        (mutateAll [fun s => { s with name := "alpha-2" }, fun s => { s with id := 5 }]
          (Restorable.construct { id := 1, name := "alpha" })) = true ∧
      Restorable.isChanged (S.ops String)
        (Restorable.restore
          (mutateAll [fun s => { s with name := "alpha-2" }, fun s => { s with id := 5 }]
            (Restorable.construct { id := 1, name := "alpha" }))) = false :=
  ⟨by decide, by decide,
    isChanged_mutate_restore (S.ops String) { id := 1, name := "alpha" } (by decide)
      [fun s => { s with name := "alpha-2" }, fun s => { s with id := 5 }] (by decide)⟩

/-! ## The original snapshot -/

/-- C4: in every state reached from `construct(v)` by any sequence of writes
through `value()` and calls of `restore()`, `save()`, `toString()`,
`isChanged()` and the const `value()`, the original snapshot is `v`; and no
single call changes the original snapshot of the wrapper it is made on. -/
theorem original_invariant (ops : Value T W E) (v : T) (calls : List (Op T)) (w : W) :
    (run ops calls (Restorable.construct v, w)).1._original = v ∧
      ∀ (o : Op T) (r : Restorable T) (w1 : W),
        (step ops o (r, w1)).1._original = r._original :=
  ⟨run_original ops calls (Restorable.construct v, w),
    fun o r w1 => step_original ops o (r, w1)⟩

/-! ## `restore()` is idempotent -/

/-- C5: for every wrapper state, `restore()` twice gives the same state as
`restore()` once (the same working copy and original snapshot, hence the same
`isChanged()` and `toString()` results), and `restore()` on a wrapper whose
working copy equals its original snapshot leaves the state as it is. -/
theorem restore_idempotent (ops : Value T W E) (r : Restorable T) :
    Restorable.restore (Restorable.restore r) = Restorable.restore r ∧
      (Restorable.restore (Restorable.restore r))._actual = (Restorable.restore r)._actual ∧
      (Restorable.restore (Restorable.restore r))._original
        = (Restorable.restore r)._original ∧
      Restorable.isChanged ops (Restorable.restore (Restorable.restore r))
        = Restorable.isChanged ops (Restorable.restore r) ∧
      Restorable.toString ops (Restorable.restore (Restorable.restore r))
        = Restorable.toString ops (Restorable.restore r) ∧
      (r._actual = r._original → Restorable.restore r = r) := by
  refine ⟨rfl, rfl, rfl, rfl, rfl, ?_⟩
  intro h
  cases r
  simp only [Restorable.restore] at *
  simp [h]

theorem restore_idempotent_witness :
    Restorable.restore (Restorable.construct ({ id := 1, name := "alpha" } : S))
      = Restorable.construct { id := 1, name := "alpha" } :=
  (restore_idempotent (S.ops String)
    (Restorable.construct { id := 1, name := "alpha" })).2.2.2.2.2 rfl

/-! ## `restore()` reverts the rendering -/

/-- C6: for every initial value `v`, `toString()` called after `restore()`
returns `T::toString` of `v`, after any sequence of writes through `value()`
(and after any sequence of calls at all).  For `S`: construct from
`{1, "alpha"}` and set `name` to `"alpha-2"`; `isChanged()` is true (under the
member-wise comparison), and after `restore()` the rendering is
`"S[ #1 alpha ]"`, the rendering of `{1, "alpha"}`, and not that of
`{1, "alpha-2"}` (whatever comparison `S` is given). -/
theorem toString_restore (ops : Value T W E) (v : T) (fs : List (T → T))
    (calls : List (Op T)) (w : W) (cmp : S → S → Bool) :
    Restorable.toString ops (Restorable.restore (mutateAll fs (Restorable.construct v)))
        = ops.toString v ∧
      Restorable.toString ops
          (Restorable.restore (run ops calls (Restorable.construct v, w)).1)
        = ops.toString v ∧
      Restorable.isChanged (S.ops E)
          (Restorable.valueMut (fun s => { s with name := "alpha-2" })
            (Restorable.construct { id := 1, name := "alpha" })) = true ∧
      Restorable.toString (S.opsWith E cmp)
          (Restorable.valueMut (fun s => { s with name := "alpha-2" })
            (Restorable.construct { id := 1, name := "alpha" }))
        = "S[ #1 alpha-2 ]" ∧
      Restorable.toString (S.opsWith E cmp)
          (Restorable.restore
            (Restorable.valueMut (fun s => { s with name := "alpha-2" })
              (Restorable.construct { id := 1, name := "alpha" })))
        = "S[ #1 alpha ]" ∧
      S.toString { id := 1, name := "alpha" } = "S[ #1 alpha ]" ∧
      Restorable.toString (S.opsWith E cmp)
          (Restorable.restore
            (Restorable.valueMut (fun s => { s with name := "alpha-2" })
              (Restorable.construct { id := 1, name := "alpha" })))
        ≠ S.toString { id := 1, name := "alpha-2" } := by
  have h1 := mutateAll_original fs (Restorable.construct v)
  have h2 := run_original ops calls (Restorable.construct v, w)
  refine ⟨?_, ?_, rfl, rfl, rfl, by decide, ?_⟩
  · simp only [Restorable.toString, Restorable.restore, h1]
    rfl
  · simp only [Restorable.toString, Restorable.restore, h2]
    rfl
  · show S.toString { id := 1, name := "alpha" } ≠ S.toString { id := 1, name := "alpha-2" }
    decide

/-! ## The factories -/

/-- C7, as stated, fails in its consequence "so `isChanged()` is false":
`makeRestorable` on a NaN reading saves it once and returns a wrapper whose
working copy and original snapshot are both that reading, and `isChanged()` on
the returned wrapper is true. -/
theorem makeRestorable_nan :
    makeRestorable Reading.ops Reading.nan []
        = (Except.ok { _actual := Reading.nan, _original := Reading.nan }, [Reading.nan]) ∧
      Restorable.isChanged Reading.ops
        { _actual := Reading.nan, _original := Reading.nan } = true :=
  ⟨rfl, by decide⟩

/-- C7 (amended): for every sample `s`, `makeRestorable(s)` invokes `s.save()`
exactly once (the journal of `save` invocations grows by the one entry `s`, and
the world after the call is the world after one `s.save()`); the call comes
before the snapshot: when it throws, the exception leaves `makeRestorable` and
no wrapper is built, and when it returns, `makeRestorable` returns the wrapper
whose working copy and original snapshot are both `s`, an object recorded in the
journal.  `isChanged()` on that wrapper is `s != s`, false when
`T::operator!=` does not distinguish `s` from itself.  `s` is arbitrary, so
this holds whatever was done to it before the call. -/
theorem makeRestorable_spec (ops : Value T W E) (s : T) (w : W) (j : List T) :
    (makeRestorable (journaled ops) s (w, j)).2.2 = j ++ [s] ∧
      (makeRestorable ops s w).2 = (ops.save s w).2 ∧
      (∀ w1, ops.save s w = (Except.ok (), w1) →
        makeRestorable ops s w = (Except.ok { _actual := s, _original := s }, w1) ∧
        makeRestorable (journaled ops) s (w, j)
          = (Except.ok { _actual := s, _original := s }, (w1, j ++ [s])) ∧
        ({ _actual := s, _original := s } : Restorable T)._original ∈ j ++ [s]) ∧
      (∀ e w1, ops.save s w = (Except.error e, w1) →
        makeRestorable ops s w = (Except.error e, w1)) ∧
      (ops.ne s s = false →
        Restorable.isChanged ops { _actual := s, _original := s } = false) := by
  refine ⟨?_, makeRestorable_world ops s w, ?_, ?_, ?_⟩
  · rw [makeRestorable_world]
    rfl
  · intro w1 h
    refine ⟨makeRestorable_ok ops s w w1 h, ?_, by simp⟩
    apply makeRestorable_ok
    simp [journaled, h]
  · intro e w1 h
    exact makeRestorable_error ops s w w1 e h
  · intro h
    exact h

theorem makeRestorable_spec_witness :
    (makeRestorable (S.ops String) { id := 1, name := "alpha-2" } ""
        = (Except.ok { _actual := { id := 1, name := "alpha-2" },
                       _original := { id := 1, name := "alpha-2" } },
            "Сохраняю S #1...\n")) ∧
      Restorable.isChanged (S.ops String)
        { _actual := { id := 1, name := "alpha-2" },
          _original := { id := 1, name := "alpha-2" } } = false ∧
      makeRestorable quotaOps { id := 1, name := "alpha-2" } 0
        = (Except.error "store full", 0) :=
  ⟨((makeRestorable_spec (S.ops String) { id := 1, name := "alpha-2" } "" []).2.2.1
      "Сохраняю S #1...\n" rfl).1,
    (makeRestorable_spec (S.ops String) { id := 1, name := "alpha-2" } "" []).2.2.2.2
      (by decide),
    (makeRestorable_spec quotaOps { id := 1, name := "alpha-2" } 0 []).2.2.2.1
      "store full" 0 rfl⟩

/-- C8: for every sample `s`, `makeEntity(s)` is `makeRestorable(s)` with the
returned wrapper boxed: it returns the handle whose object is a copy of that
wrapper (and throws what `makeRestorable` throws), in the world
`makeRestorable` leaves.  `save` is invoked exactly once during the call, on
`s` (the journal grows by the one entry `s`): boxing does not save again.
When `s.save()` returns, the boxed wrapper's working copy and original snapshot
are both `s`.  `loadEntity()` so yields a handle on the wrapper of
`{3, "gamma"}` after one line written to `std::cout`. -/
theorem makeEntity_spec (ops : Value T W E) (s : T) (w : W) (j : List T) (out : String) :
    makeEntity ops s w
        = (match makeRestorable ops s w with
          | (Except.ok r, w1) => (Except.ok { T := T, ops := ops, obj := r }, w1)
          | (Except.error e, w1) => (Except.error e, w1)) ∧
      (makeEntity (journaled ops) s (w, j)).2.2 = j ++ [s] ∧
      (makeEntity ops s w).2 = (ops.save s w).2 ∧
      (∀ w1, ops.save s w = (Except.ok (), w1) →
        makeEntity ops s w
          = (Except.ok { T := T, ops := ops, obj := { _actual := s, _original := s } }, w1)) ∧
      loadEntity out
        = ((Except.ok
            { T := S, ops := S.ops E,
              obj := { _actual := { id := 3, name := "gamma" },
                       _original := { id := 3, name := "gamma" } } } :
              Except E (Entity String E)),
            out ++ "Сохраняю S #3...\n") := by
  refine ⟨?_, ?_, ?_, ?_, ?_⟩
  · unfold makeEntity
    rcases makeRestorable ops s w with ⟨res, w1⟩
    cases res <;> rfl
  · rw [makeEntity_world, makeRestorable_world]
    rfl
  · rw [makeEntity_world, makeRestorable_world]
  · intro w1 h
    exact makeEntity_ok ops s w w1 h
  · exact makeEntity_ok (S.ops E) { id := 3, name := "gamma" } out _
      (S.save_eq { id := 3, name := "gamma" } out)

theorem makeEntity_spec_witness :
    makeEntity (S.ops String) { id := 3, name := "gamma" } ""
      = (Except.ok
          { T := S, ops := S.ops String,
            obj := { _actual := { id := 3, name := "gamma" },
                     _original := { id := 3, name := "gamma" } } },
          "Сохраняю S #3...\n") :=
  (makeEntity_spec (S.ops String) { id := 3, name := "gamma" } "" [] "").2.2.2.1
    "Сохраняю S #3...\n" rfl

/-! ## The erased interface -/

/-- C9: for every wrapper state, `save()` and `toString()` called through the
`Entity` interface on a handle to the wrapper give the same outcome, the same
world and the same string as the members of `Restorable<T>` called on the
wrapper itself, which are `T::save` and `T::toString` of the working copy.
Every handle is of this form, and for `r3 = loadEntity()` the rendering is
`"S[ #3 gamma ]"`. -/
theorem entity_dispatch (ops : Value T W E) (r : Restorable T) (w : W)
    (p : Entity W E) (out : String) :
    Entity.save { T := T, ops := ops, obj := r } w = Restorable.save ops r w ∧
      Entity.toString ({ T := T, ops := ops, obj := r } : Entity W E)
        = Restorable.toString ops r ∧
      Restorable.save ops r w = ops.save r._actual w ∧
      Restorable.toString ops r = ops.toString r._actual ∧
      Entity.save p w = p.ops.save p.obj._actual w ∧
      Entity.toString p = p.ops.toString p.obj._actual ∧
      (loadEntity out : Except E (Entity String E) × String).1.map Entity.toString
        = Except.ok "S[ #3 gamma ]" :=
  ⟨rfl, rfl, rfl, rfl, rfl, rfl, rfl⟩

/-! ## Failures of `save` -/

/-- C10: for every wrapper state, `Restorable<T>::save()` and `Entity::save()`
have exactly the outcome of `T::save` on the working copy: when that throws `e`
they throw `e`, when it returns they return, in the same world; the wrapper is
the same after the call either way.  When `sample.save()` throws `e`,
`makeRestorable` and `makeEntity` throw `e` and produce no wrapper. -/
theorem save_forwarding (ops : Value T W E) (r : Restorable T) (w : W) :
    Restorable.save ops r w = ops.save r._actual w ∧
      Entity.save { T := T, ops := ops, obj := r } w = ops.save r._actual w ∧
      (∀ e w1, ops.save r._actual w = (Except.error e, w1) →
        Restorable.save ops r w = (Except.error e, w1) ∧
        Entity.save { T := T, ops := ops, obj := r } w = (Except.error e, w1)) ∧
      (∀ w1, ops.save r._actual w = (Except.ok (), w1) →
        Restorable.save ops r w = (Except.ok (), w1) ∧
        Entity.save { T := T, ops := ops, obj := r } w = (Except.ok (), w1)) ∧
      (step ops Op.save (r, w)).1 = r ∧
      (∀ (s : T) e w1, ops.save s w = (Except.error e, w1) →
        makeRestorable ops s w = (Except.error e, w1) ∧
        makeEntity ops s w = (Except.error e, w1)) := by
  refine ⟨rfl, rfl, fun e w1 h => ⟨h, h⟩, fun w1 h => ⟨h, h⟩, rfl, ?_⟩
  intro s e w1 h
  refine ⟨makeRestorable_error ops s w w1 e h, ?_⟩
  unfold makeEntity
  rw [makeRestorable_error ops s w w1 e h]

theorem save_forwarding_witness :
    (Restorable.save quotaOps (Restorable.construct { id := 1, name := "alpha" }) 0
        = (Except.error "store full", 0) ∧
      Entity.save
          { T := S, ops := quotaOps, obj := Restorable.construct { id := 1, name := "alpha" } } 0
        = (Except.error "store full", 0)) ∧
      (Restorable.save quotaOps (Restorable.construct { id := 1, name := "alpha" }) 1
        = (Except.ok (), 0) ∧
      Entity.save
          { T := S, ops := quotaOps, obj := Restorable.construct { id := 1, name := "alpha" } } 1
        = (Except.ok (), 0)) ∧
      (makeRestorable quotaOps { id := 1, name := "alpha" } 0 = (Except.error "store full", 0) ∧
      makeEntity quotaOps { id := 1, name := "alpha" } 0 = (Except.error "store full", 0)) :=
  ⟨(save_forwarding quotaOps (Restorable.construct { id := 1, name := "alpha" }) 0).2.2.1
      "store full" 0 rfl,
    (save_forwarding quotaOps (Restorable.construct { id := 1, name := "alpha" }) 1).2.2.2.1
      0 rfl,
    (save_forwarding quotaOps (Restorable.construct { id := 1, name := "alpha" }) 0).2.2.2.2.2
      { id := 1, name := "alpha" } "store full" 0 rfl⟩

/-! ## `save()` and `toString()` leave the wrapper alone -/

/-- C11: for every wrapper state, `save()` and `toString()` leave the working
copy and the original snapshot as they are, and their results depend on the
working copy alone (not on the original snapshot).  So `isChanged()`, `value()`
and a following `restore()` give what they would have given without the call,
and in any sequence of calls the `save()` and `toString()` calls can be left
out without changing the wrapper reached. -/
theorem save_toString_frame (ops : Value T W E) (r : Restorable T) (w : W)
    (o1 o2 : T) (calls : List (Op T)) :
    (step ops Op.save (r, w)).1 = r ∧
      step ops Op.toString (r, w) = (r, w) ∧
      Restorable.save ops { _actual := r._actual, _original := o1 } w
        = Restorable.save ops { _actual := r._actual, _original := o2 } w ∧
      Restorable.toString ops { _actual := r._actual, _original := o1 }
        = Restorable.toString ops { _actual := r._actual, _original := o2 } ∧
      Restorable.isChanged ops (step ops Op.save (r, w)).1 = Restorable.isChanged ops r ∧
      Restorable.value (step ops Op.save (r, w)).1 = Restorable.value r ∧
      Restorable.restore (step ops Op.save (r, w)).1 = Restorable.restore r ∧
      Restorable.isChanged ops (step ops Op.toString (r, w)).1
        = Restorable.isChanged ops r ∧
      Restorable.value (step ops Op.toString (r, w)).1 = Restorable.value r ∧
      Restorable.restore (step ops Op.toString (r, w)).1 = Restorable.restore r ∧
      (run ops calls (r, w)).1
        = (run ops (calls.filter (fun o => !o.isSaveOrToString)) (r, w)).1 :=
  ⟨rfl, rfl, rfl, rfl, rfl, rfl, rfl, rfl, rfl, rfl, run_filter_wrapper ops calls r w⟩

/-! ## Wrappers do not share storage -/

/-- C12: two wrappers constructed one after the other from live objects (the
same object, or two objects holding the same value `v`), in any instantiation
with a non-reference type, which is every instantiation the factories make
(`std::decay_t`): the four member objects are distinct from each other and
from the source objects, and both wrappers hold `v` twice.  After a write `f`
through `value()` of one of them, that one holds `f v` as working copy and `v`
as original snapshot, and the other is as before: the same working copy, the
same original snapshot and the same `isChanged()` result. -/
theorem wrappers_no_sharing (ops : Value T W E) (U : Mem.TypeArg)
    (hU : U.isReference = false) (st : Mem.Store T) (p q : Nat)
    (hp : p < st.next) (hq : q < st.next) (f : T → T) :
    (∀ targ, (Mem.decay_t targ).isReference = false) ∧
      ∃ a st1 b st2,
        Mem.Restorable.construct U p st = (a, st1) ∧
        Mem.Restorable.construct U q st1 = (b, st2) ∧
        (b._actual ≠ a._actual ∧ b._actual ≠ a._original ∧
          b._original ≠ a._actual ∧ b._original ≠ a._original ∧
          a._actual ≠ a._original ∧ b._actual ≠ b._original) ∧
        (a._actual ≠ p ∧ a._original ≠ p ∧ b._actual ≠ q ∧ b._original ≠ q) ∧
        Mem.Restorable.read a st2 = Restorable.construct (st.mem p) ∧
        Mem.Restorable.read b st2 = Restorable.construct (st.mem q) ∧
        Mem.Restorable.read a (Mem.Store.update (Mem.Restorable.value a) f st2)
          = Restorable.valueMut f (Restorable.construct (st.mem p)) ∧
        Mem.Restorable.read b (Mem.Store.update (Mem.Restorable.value a) f st2)
          = Mem.Restorable.read b st2 ∧
        Mem.Restorable.isChanged ops b (Mem.Store.update (Mem.Restorable.value a) f st2)
          = Mem.Restorable.isChanged ops b st2 ∧
        Mem.Restorable.read b (Mem.Store.update (Mem.Restorable.value b) f st2)
          = Restorable.valueMut f (Restorable.construct (st.mem q)) ∧
        Mem.Restorable.read a (Mem.Store.update (Mem.Restorable.value b) f st2)
          = Mem.Restorable.read a st2 ∧
        Mem.Restorable.isChanged ops a (Mem.Store.update (Mem.Restorable.value b) f st2)
          = Mem.Restorable.isChanged ops a st2 := by
  refine ⟨Mem.decay_t_isReference, (Mem.Restorable.construct U p st).1,
    (Mem.Restorable.construct U p st).2,
    (Mem.Restorable.construct U q (Mem.Restorable.construct U p st).2).1,
    (Mem.Restorable.construct U q (Mem.Restorable.construct U p st).2).2, rfl, rfl, ?_⟩
  have ha := Mem.construct_object_fst U hU p st
  have hn := Mem.construct_object_next U hU p st
  have hb := Mem.construct_object_fst U hU q (Mem.Restorable.construct U p st).2
  have hm1 := fun x => Mem.construct_object_mem U hU p x st
  have hm2 := fun x => Mem.construct_object_mem U hU q x (Mem.Restorable.construct U p st).2
  rw [hn] at hb hm2
  simp only [Mem.Restorable.read, Mem.Restorable.isChanged, Mem.Restorable.value,
    Mem.Store.update, Mem.Store.write, Restorable.construct, Restorable.valueMut,
    ha, hb, hm2, hm1]
  have h1 : p ≠ st.next := by omega
  have h2 : p ≠ st.next + 1 := by omega
  have h3 : q ≠ st.next := by omega
  have h4 : q ≠ st.next + 1 := by omega
  have h5 : q ≠ st.next + 2 := by omega
  have h6 : q ≠ st.next + 2 + 1 := by omega
  have h7 : st.next ≠ st.next + 2 + 1 := by omega
  have h8 : st.next + 2 + 1 ≠ st.next := by omega
  refine ⟨⟨by omega, by omega, by omega, by omega, by omega, by omega⟩,
    ⟨by omega, by omega, by omega, by omega⟩, ?_, ?_, ?_, ?_, ?_, ?_, ?_, ?_⟩ <;>
    simp [h1, h2, h3, h4, h5, h6, h7, h8]

theorem wrappers_no_sharing_witness :
    (Mem.decay_t (Mem.deduce Mem.ArgKind.lvalue)).isReference = false ∧
      0 < (Mem.Store.alloc ({ id := 1, name := "alpha" } : S) Mem.emptyStore).2.next ∧
      ∃ a st1 b st2,
        Mem.Restorable.construct (Mem.decay_t (Mem.deduce Mem.ArgKind.lvalue)) 0
            (Mem.Store.alloc ({ id := 1, name := "alpha" } : S) Mem.emptyStore).2
          = (a, st1) ∧
        Mem.Restorable.construct (Mem.decay_t (Mem.deduce Mem.ArgKind.lvalue)) 0 st1
          = (b, st2) ∧
        a = { _actual := 1, _original := 2 } ∧ b = { _actual := 3, _original := 4 } ∧
        Mem.Restorable.read a
            (Mem.Store.update (Mem.Restorable.value a)
              (fun s => { s with name := "alpha-2" }) st2)
          = { _actual := { id := 1, name := "alpha-2" },
              _original := { id := 1, name := "alpha" } } ∧
        Mem.Restorable.read b
            (Mem.Store.update (Mem.Restorable.value a)
              (fun s => { s with name := "alpha-2" }) st2)
          = { _actual := { id := 1, name := "alpha" },
              _original := { id := 1, name := "alpha" } } := by
  obtain ⟨a, st1, b, st2, h1, h2, _, _, _, h3, h4, h5, _, _, _, _⟩ :=
    (wrappers_no_sharing (S.ops String) (Mem.decay_t (Mem.deduce Mem.ArgKind.lvalue)) rfl
      (Mem.Store.alloc ({ id := 1, name := "alpha" } : S) Mem.emptyStore).2 0 0
      (by decide) (by decide) (fun s => { s with name := "alpha-2" })).2
  have ea := (congrArg Prod.fst h1).symm
  have es := (congrArg Prod.snd h1).symm
  subst es
  have eb := (congrArg Prod.fst h2).symm
  exact ⟨rfl, by decide, a, _, b, st2, h1, h2, ea, eb, h4, h5.trans h3⟩

/-- C13: for every sample variable `s` (a live object, passed as a variable, a
`const` variable or a temporary) whose `save()` returns,
`auto r = makeRestorable(s);` returns a wrapper whose two members are objects
of their own, distinct from `s` and from each other, both holding the value of
`s` at the call, and `s` itself is as it was.  After any sequence of later
assignments to `s`, the working copy and the original snapshot still hold that
value and `isChanged()` and `toString()` give the same results, while `s`
holds the value assigned last.  In `main`, run over the store, `r1` made from
`{1, "alpha"}` is printed as `"S[ #1 alpha ]"` before and after
`s = {2, "beta"}` and `r2`, made afterwards, as `"S[ #2 beta ]"`; at the end
`s` holds `{2, "beta"}`, both members of `r1` hold `{1, "alpha"}` and both
members of `r2` hold `{2, "beta"}`. -/
theorem makeRestorable_no_alias (ops : Value T W E) (k : Mem.ArgKind) (st : Mem.Store T)
    (s : Nat) (hs : s < st.next) (w w1 : W)
    (hsave : ops.save (st.mem s) w = (Except.ok (), w1)) (vs : List T) (v : T) :
    (∃ r st1,
        Mem.makeRestorable ops (Mem.deduce k) s st w = (Except.ok r, st1, w1) ∧
        (r._actual ≠ s ∧ r._original ≠ s ∧ r._actual ≠ r._original) ∧
        st1.mem s = st.mem s ∧
        Mem.Restorable.read r st1 = Restorable.construct (st.mem s) ∧
        Mem.Restorable.read r (Mem.Store.writeAll s vs st1)
          = Restorable.construct (st.mem s) ∧
        Mem.Restorable.isChanged ops r (Mem.Store.writeAll s vs st1)
          = Mem.Restorable.isChanged ops r st1 ∧
        Mem.Restorable.toString ops r (Mem.Store.writeAll s vs st1)
          = Mem.Restorable.toString ops r st1 ∧
        Mem.Restorable.toString ops r (Mem.Store.writeAll s vs st1) = ops.toString (st.mem s) ∧
        (Mem.Store.writeAll s (vs ++ [v]) st1).mem s = v) ∧
      (Mem.main (E := E) Mem.emptyStore "").1
        = Except.ok
            { s := 0, r1 := { _actual := 1, _original := 2 },
              r2 := { _actual := 3, _original := 4 },
              r3 := { _actual := 8, _original := 9 }, cs := 10,
              r4 := { _actual := 11, _original := 12 } } ∧
      (Mem.main (E := E) Mem.emptyStore "").2.2
        = "Сохраняю S #1...\nr1 = S[ #1 alpha ]\nСохраняю S #2...\nr2 = S[ #2 beta ]\n\n"
          ++ "r1 = S[ #1 alpha ]\nr2 = S[ #2 beta ]\n\n"
          ++ "Сохраняю S #3...\nr3 = S[ #3 gamma ]\n\n"
          ++ "Сохраняю S #4...\nr4 = S[ #4 delta ]\nr4 = S[ #4 delta (upd.) ]\n" ∧
      (Mem.main (E := E) Mem.emptyStore "").2.1.mem 0 = { id := 2, name := "beta" } ∧
      Mem.Restorable.read { _actual := 1, _original := 2 }
          (Mem.main (E := E) Mem.emptyStore "").2.1
        = Restorable.construct { id := 1, name := "alpha" } ∧
      Mem.Restorable.read { _actual := 3, _original := 4 }
          (Mem.main (E := E) Mem.emptyStore "").2.1
        = Restorable.construct { id := 2, name := "beta" } ∧
      (Mem.main (E := E) Mem.emptyStore "").2.2 = (main (E := E) "").2 := by
  refine ⟨?_, Mem.main_store_eq.1, Mem.main_store_eq.2, rfl, rfl, rfl, rfl⟩
  have hU := Mem.decay_t_isReference (Mem.deduce k)
  have hr := Mem.construct_object_fst (Mem.decay_t (Mem.deduce k)) hU s st
  have hm := fun x => Mem.construct_object_mem (Mem.decay_t (Mem.deduce k)) hU s x st
  have h1 : s ≠ st.next := by omega
  have h2 : s ≠ st.next + 1 := by omega
  have ha : st.next ≠ s := by omega
  have ho : st.next + 1 ≠ s := by omega
  refine ⟨_, _, Mem.makeRestorable_at_ok ops (Mem.deduce k) s st w w1 hsave, ?_⟩
  rw [hr]
  simp only [Mem.Restorable.read, Mem.Restorable.isChanged, Mem.Restorable.toString,
    Restorable.construct, Mem.Store.writeAll_mem_ne s _ vs _ ha,
    Mem.Store.writeAll_mem_ne s _ vs _ ho, Mem.Store.writeAll_mem_last, hm]
  refine ⟨⟨ha, ho, by omega⟩, ?_, ?_, ?_, trivial, trivial, ?_, trivial⟩ <;> simp [h1, h2]

theorem makeRestorable_no_alias_witness :
    (0 < (Mem.Store.alloc ({ id := 1, name := "alpha" } : S) Mem.emptyStore).2.next ∧
      (S.ops String).save
          ((Mem.Store.alloc ({ id := 1, name := "alpha" } : S) Mem.emptyStore).2.mem 0) ""
        = (Except.ok (), "Сохраняю S #1...\n")) ∧
      ∃ r st1,
        Mem.makeRestorable (S.ops String) (Mem.deduce Mem.ArgKind.lvalue) 0
            (Mem.Store.alloc ({ id := 1, name := "alpha" } : S) Mem.emptyStore).2 ""
          = (Except.ok r, st1, "Сохраняю S #1...\n") ∧
        r = { _actual := 1, _original := 2 } ∧
        Mem.Restorable.read r (Mem.Store.writeAll 0 [{ id := 2, name := "beta" }] st1)
          = { _actual := { id := 1, name := "alpha" },
              _original := { id := 1, name := "alpha" } } ∧
        (Mem.Store.writeAll 0 [{ id := 2, name := "beta" }] st1).mem 0
          = { id := 2, name := "beta" } := by
  obtain ⟨r, st1, h1, _, _, _, h2, _, _, _, h3⟩ :=
    (makeRestorable_no_alias (S.ops String) Mem.ArgKind.lvalue
      (Mem.Store.alloc ({ id := 1, name := "alpha" } : S) Mem.emptyStore).2 0 (by decide)
      "" "Сохраняю S #1...\n" rfl [] { id := 2, name := "beta" }).1
  have h4 := (makeRestorable_no_alias (S.ops String) Mem.ArgKind.lvalue
      (Mem.Store.alloc ({ id := 1, name := "alpha" } : S) Mem.emptyStore).2 0 (by decide)
      "" "Сохраняю S #1...\n" rfl [{ id := 2, name := "beta" }] { id := 2, name := "beta" }).1
  obtain ⟨r2, st2, g1, _, _, _, g2, _, _, _, _⟩ := h4
  have e := h1.symm.trans g1
  have er : r = r2 := by
    have := congrArg (fun x => x.1) e
    simpa using this
  have es : st1 = st2 := congrArg (fun x => x.2.1) e
  subst er
  subst es
  have ea : r = { _actual := 1, _original := 2 } := by
    have := congrArg (fun x => x.1) h1
    simp only at this
    exact (Except.ok.inj this).symm
  exact ⟨⟨by decide, rfl⟩, r, st1, h1, ea, g2, h3⟩

/-! ## A wrapper made from a `const` object -/

/-- C14: `makeRestorable` on the `const S cs {4, "delta"}` of `main` returns a
wrapper (after one `save()` line on `std::cout`) that renders as
`"S[ #4 delta ]"`; after `r4.value().name = "delta (upd.)"` it renders as
`"S[ #4 delta (upd.) ]"`, the rendering of the working copy and not of the
original, while the original snapshot is still `{4, "delta"}`; at the end of
`main`, `cs` is `{4, "delta"}`, the working copy of `r4` is
`{4, "delta (upd.)"}` and its original snapshot `{4, "delta"}`, and the last
two lines printed are the two renderings. -/
theorem const_source_wrapper (E : Type) (out : String) :
    makeRestorable (S.ops E) { id := 4, name := "delta" } out
        = (Except.ok { _actual := { id := 4, name := "delta" },
                       _original := { id := 4, name := "delta" } },
            out ++ "Сохраняю S #4...\n") ∧
      Restorable.toString (S.ops E)
          { _actual := { id := 4, name := "delta" },
            _original := { id := 4, name := "delta" } }
        = "S[ #4 delta ]" ∧
      Restorable.toString (S.ops E)
          (Restorable.valueMut (fun v => { v with name := "delta (upd.)" })
            { _actual := { id := 4, name := "delta" },
              _original := { id := 4, name := "delta" } })
        = "S[ #4 delta (upd.) ]" ∧
      (Restorable.valueMut (fun v => { v with name := "delta (upd.)" })
          ({ _actual := { id := 4, name := "delta" },
             _original := { id := 4, name := "delta" } } : Restorable S))
        = { _actual := { id := 4, name := "delta (upd.)" },
            _original := { id := 4, name := "delta" } } ∧
      Restorable.toString (S.ops E)
          (Restorable.valueMut (fun v => { v with name := "delta (upd.)" })
            { _actual := { id := 4, name := "delta" },
              _original := { id := 4, name := "delta" } })
        ≠ S.toString { id := 4, name := "delta" } ∧
      (main (E := E) "").1.map (fun l => (l.cs, l.r4))
        = Except.ok
            ({ id := 4, name := "delta" },
              { _actual := { id := 4, name := "delta (upd.)" },
                _original := { id := 4, name := "delta" } }) ∧
      (∃ before : String,
        (main (E := E) "").2
          = before ++ "r4 = S[ #4 delta ]\nr4 = S[ #4 delta (upd.) ]\n") := by
  refine ⟨?_, rfl, rfl, rfl, ?_, ?_, ?_⟩
  · exact makeRestorable_ok (S.ops E) { id := 4, name := "delta" } out _
      (S.save_eq { id := 4, name := "delta" } out)
  · show S.toString { id := 4, name := "delta (upd.)" } ≠ S.toString { id := 4, name := "delta" }
    decide
  · rw [main_eq]
    rfl
  · refine ⟨"Сохраняю S #1...\nr1 = S[ #1 alpha ]\nСохраняю S #2...\nr2 = S[ #2 beta ]\n\n"
      ++ "r1 = S[ #1 alpha ]\nr2 = S[ #2 beta ]\n\n"
      ++ "Сохраняю S #3...\nr3 = S[ #3 gamma ]\n\n"
      ++ "Сохраняю S #4...\n", ?_⟩
    rw [main_eq]
    rfl

/-! ## Change detection compares values -/

/-- C15: for every initial value `v` and every sequence of writes through
`value()`, `isChanged()` is `working != v` under `T::operator!=` for the final
working value, whatever the writes before it were.  So when a write takes the
working copy to a value that differs from `v` and a second write takes it to
a value that the comparison finds equal to `v`, `isChanged()` is true after
the first and false after the second, with no call of `restore()`; and two
sequences of writes ending in the same working value give the same
`isChanged()` result. -/
theorem isChanged_value_based (ops : Value T W E) (v : T) (fs gs : List (T → T)) :
    Restorable.isChanged ops (mutateAll fs (Restorable.construct v))
        = ops.ne (mutateAll fs (Restorable.construct v))._actual v ∧
      (∀ away back : T → T, ops.ne (away v) v = true → ops.ne (back (away v)) v = false →
        Restorable.isChanged ops (mutateAll [away] (Restorable.construct v)) = true ∧
        Restorable.isChanged ops (mutateAll [away, back] (Restorable.construct v)) = false) ∧
      ((mutateAll fs (Restorable.construct v))._actual
          = (mutateAll gs (Restorable.construct v))._actual →
        Restorable.isChanged ops (mutateAll fs (Restorable.construct v))
          = Restorable.isChanged ops (mutateAll gs (Restorable.construct v))) := by
  have hf := mutateAll_original fs (Restorable.construct v)
  have hg := mutateAll_original gs (Restorable.construct v)
  refine ⟨?_, fun away back h1 h2 => ⟨h1, h2⟩, ?_⟩
  · simp only [Restorable.isChanged, hf]
    rfl
  · intro h
    simp only [Restorable.isChanged, hf, hg, h]

theorem isChanged_value_based_witness :
    Restorable.isChanged (S.ops String)
        (mutateAll [fun s => { s with name := "alpha-2" }]
          (Restorable.construct { id := 1, name := "alpha" })) = true ∧
      Restorable.isChanged (S.ops String)
        (mutateAll [fun s => { s with name := "alpha-2" }, fun s => { s with name := "alpha" }]
          (Restorable.construct { id := 1, name := "alpha" })) = false :=
  (isChanged_value_based (S.ops String) { id := 1, name := "alpha" } [] []).2.1
    (fun s => { s with name := "alpha-2" }) (fun s => { s with name := "alpha" })
    (by decide) (by decide)

/-! ## `save()` does not move the baseline -/

/-- C16: for every wrapper `r` reached from `construct(v)` whose working copy
differs from `v` under `T::operator!=`: `save()` invokes `T::save` once, on
the working copy; `isChanged()` is still true after it; a following
`restore()` makes the working copy `v`, the value given at construction (not
the saved working copy, when the comparison does not distinguish `v` from
itself); and `restore()` invokes no `save` and leaves the world as it is. -/
theorem save_keeps_baseline (ops : Value T W E) (v : T) (calls : List (Op T)) (w0 w : W)
    (j : List T) (r : Restorable T)
    (hr : r = (run ops calls (Restorable.construct v, w0)).1)
    (hdiff : ops.ne r._actual v = true) :
    (step (journaled ops) Op.save (r, (w, j))).2
        = ((ops.save r._actual w).2, j ++ [r._actual]) ∧
      Restorable.isChanged ops (step ops Op.save (r, w)).1 = true ∧
      (run ops [Op.save, Op.restore] (r, w)).1 = { _actual := v, _original := v } ∧
      (run ops [Op.save, Op.restore] (r, w)).2 = (ops.save r._actual w).2 ∧
      (ops.ne v v = false → (run ops [Op.save, Op.restore] (r, w)).1._actual ≠ r._actual) ∧
      step (journaled ops) Op.restore (r, (w, j)) = (Restorable.restore r, (w, j)) := by
  have ho : r._original = v := by
    rw [hr]
    exact run_original ops calls (Restorable.construct v, w0)
  have hrun : (run ops [Op.save, Op.restore] (r, w)).1 = { _actual := v, _original := v } := by
    show Restorable.restore r = _
    simp [Restorable.restore, ho]
  refine ⟨rfl, ?_, hrun, rfl, ?_, rfl⟩
  · show ops.ne r._actual r._original = true
    rw [ho]
    exact hdiff
  · intro hv heq
    rw [hrun] at heq
    simp only at heq
    rw [← heq, hv] at hdiff
    cases hdiff

theorem save_keeps_baseline_witness :
    (run (S.ops String) [Op.save, Op.restore]
        ({ _actual := { id := 1, name := "alpha-2" },
           _original := { id := 1, name := "alpha" } }, "")).1
      = { _actual := { id := 1, name := "alpha" }, _original := { id := 1, name := "alpha" } } :=
  (save_keeps_baseline (S.ops String) { id := 1, name := "alpha" }
    [Op.valueMut (fun s => { s with name := "alpha-2" })] "" "" []
    { _actual := { id := 1, name := "alpha-2" }, _original := { id := 1, name := "alpha" } }
    rfl (by decide)).2.2.1

end Claims

end TmplRef
